import Mathlib

/-
Shallow embedding of src/api.py (embedd-chain): a FastAPI gateway that
caches one retrieval-engine handle per workspace, verifies HMAC request
signatures, and delegates each data endpoint to exactly one engine
capability.  Python dict state is modelled as an association list with
insertion order preserved (new keys appended); opaque EmbedChainApp
objects are modelled by identity tokens drawn from a fresh-counter, so
that Python object identity becomes equality of tokens; external calls
(the embedchain engine, the supabase backend, the HMAC primitive) are
oracles passed as explicit parameters; a raised HTTPException is an
error result carrying the status code and detail string.
-/

namespace EmbedApi

/-- Outcome of a call into the external engine or backend: the Python
call either returns a value, raises ValueError, or raises some other
exception; str(e) of the exception is carried as the message. -/
inductive EngineOutcome (α : Type) where
  | success (v : α)
  | raiseValueError (msg : String)
  | raiseOther (msg : String)
deriving DecidableEq, Repr

/-- Result of a handler: a 200 body, or a raised HTTPException with
status code and detail (src/api.py raises HTTPException everywhere). -/
inductive HandlerResult (α : Type) where
  | ok (value : α)
  | httpError (status : Nat) (detail : String)
deriving DecidableEq, Repr

/-- The metadata filter dict passed to every engine call in src/api.py:
a single-key dict mapping the key workspace_id to the caller's id. -/
structure Metadata where
  workspace_id : String
deriving DecidableEq, Repr

/--
State of the module-level dict `workspace_apps` (src/api.py line 41)
together with a fresh-counter producing identity tokens for newly
constructed EmbedChainApp objects: `EmbedChainApp.from_config` returns a
new object on every call, so each construction consumes a fresh token.
-/
structure CacheState where
  workspace_apps : List (String × Nat)
  nextHandle : Nat
deriving DecidableEq, Repr

/-- Python dict lookup on the association list (first match). -/
def lookupApp : List (String × Nat) → String → Option Nat
  | [], _ => none
  | (k, v) :: rest, w => if k = w then some v else lookupApp rest w

/--
get_workspace_app (src/api.py lines 50-54): if workspace_id is not a
key of workspace_apps, construct a fresh EmbedChainApp (a fresh token)
and insert it (Python dict insertion appends the new key); return the
cached handle.
-/
def get_workspace_app (s : CacheState) (workspace_id : String) :
    Nat × CacheState :=
  match lookupApp s.workspace_apps workspace_id with
  | some h => (h, s)
  | none =>
      (s.nextHandle,
       ⟨s.workspace_apps ++ [(workspace_id, s.nextHandle)], s.nextHandle + 1⟩)

/-- Invariant of reachable cache states: every cached token was drawn
below the fresh counter, and cached tokens are pairwise distinct
(each EmbedChainApp object is inserted exactly once). -/
def CacheWF (s : CacheState) : Prop :=
  (∀ p ∈ s.workspace_apps, p.2 < s.nextHandle) ∧
    (s.workspace_apps.map Prod.snd).Nodup

theorem lookupApp_mem_values {m : List (String × Nat)} {w : String} {v : Nat}
    (h : lookupApp m w = some v) : v ∈ m.map Prod.snd := by
  induction m with
  | nil => simp [lookupApp] at h
  | cons p rest ih =>
      obtain ⟨k, x⟩ := p
      by_cases hk : k = w
      · simp [lookupApp, hk] at h
        simp [h]
      · simp [lookupApp, hk] at h
        simpa using Or.inr (ih h)

theorem lookupApp_lt {m : List (String × Nat)} {w : String} {v n : Nat}
    (hb : ∀ p ∈ m, p.2 < n) (h : lookupApp m w = some v) : v < n := by
  have hv := lookupApp_mem_values h
  simp only [List.mem_map] at hv
  obtain ⟨p, hp, hpv⟩ := hv
  exact hpv ▸ hb p hp

theorem lookupApp_append_none {m : List (String × Nat)} {w : String} (n : Nat)
    (h : lookupApp m w = none) :
    lookupApp (m ++ [(w, n)]) w = some n := by
  induction m with
  | nil => simp [lookupApp]
  | cons p rest ih =>
      obtain ⟨k, x⟩ := p
      by_cases hk : k = w
      · simp [lookupApp, hk] at h
      · simp only [lookupApp, hk, if_false, List.cons_append]
        simp only [lookupApp, hk, if_false] at h ⊢
        exact ih h

theorem lookupApp_append_ne {m : List (String × Nat)} {w w' : String} (n : Nat)
    (hne : w' ≠ w) :
    lookupApp (m ++ [(w, n)]) w' = lookupApp m w' := by
  induction m with
  | nil => simp [lookupApp, Ne.symm hne]
  | cons p rest ih =>
      obtain ⟨k, x⟩ := p
      by_cases hk : k = w'
      · simp [lookupApp, hk]
      · simp [lookupApp, hk, ih]

theorem lookupApp_inj {m : List (String × Nat)} {w1 w2 : String} {v1 v2 : Nat}
    (hnd : (m.map Prod.snd).Nodup)
    (h1 : lookupApp m w1 = some v1) (h2 : lookupApp m w2 = some v2)
    (hne : w1 ≠ w2) : v1 ≠ v2 := by
  induction m with
  | nil => simp [lookupApp] at h1
  | cons p rest ih =>
      obtain ⟨k, x⟩ := p
      simp only [List.map_cons, List.nodup_cons] at hnd
      by_cases hk1 : k = w1
      · have hk2 : k ≠ w2 := fun h => hne (hk1 ▸ h ▸ rfl)
        simp [lookupApp, hk1] at h1
        simp [lookupApp, hk2] at h2
        intro hc
        exact hnd.1 (h1 ▸ hc ▸ lookupApp_mem_values h2)
      · by_cases hk2 : k = w2
        · simp [lookupApp, hk1] at h1
          simp [lookupApp, hk2] at h2
          intro hc
          exact hnd.1 (h2 ▸ hc ▸ lookupApp_mem_values h1)
        · simp [lookupApp, hk1] at h1
          simp [lookupApp, hk2] at h2
          exact ih hnd.2 h1 h2

theorem get_workspace_app_preserves_WF (s : CacheState) (w : String)
    (hwf : CacheWF s) : CacheWF (get_workspace_app s w).2 := by
  unfold get_workspace_app
  cases hl : lookupApp s.workspace_apps w with
  | some h => exact hwf
  | none =>
      refine ⟨?_, ?_⟩
      · intro p hp
        simp only [List.mem_append, List.mem_singleton] at hp
        rcases hp with hp | hp
        · exact Nat.lt_trans (hwf.1 p hp) (Nat.lt_succ_self _)
        · simp [hp]
      · simp only [List.map_append, List.map_cons, List.map_nil]
        rw [List.nodup_append]
        refine ⟨hwf.2, List.nodup_singleton _, ?_⟩
        intro v hv hv'
        simp only [List.mem_singleton] at hv'
        exact absurd (hv' ▸ hv)
          (fun hm => Nat.lt_irrefl _ (by
            simp only [List.mem_map] at hm
            obtain ⟨p, hp, hpv⟩ := hm
            exact hpv ▸ hwf.1 p hp))

/--
verify_hmac_signature (src/api.py lines 57-67).  The HMAC-SHA256 hex
digest primitive (hmac.new(secret.encode(), body, sha256).hexdigest())
lives in the Python standard library, outside this repository; it is an
explicit parameter hmacHex taking the secret and the raw body.  The
header X-Signature is an Option String (none when absent); Python's
`if not signature` is also true for a present-but-empty header.
hmac.compare_digest on two strings is (timing-safe) string equality.
Result: none when verification passes, some (status, detail) when the
function raises HTTPException(status, detail).
-/
def verify_hmac_signature (hmacHex : String → String → String)
    (secret : String) (xSignature : Option String) (body : String) :
    Option (Nat × String) :=
  match xSignature with
  | none => some (403, "Signature missing")
  | some signature =>
      if signature = "" then some (403, "Signature missing")
      else if hmacHex secret body = signature then none
      else some (403, "Invalid signature")

/-- string.ascii_letters from the Python standard library. -/
def ascii_letters : List Char :=
  "abcdefghijklmnopqrstuvwxyzABCDEFGHIJKLMNOPQRSTUVWXYZ".toList

/-- string.digits from the Python standard library. -/
def pydigits : List Char := "0123456789".toList

/-- The population passed to random.choices in generate_workspace_id:
string.ascii_letters + string.digits, 62 characters. -/
def alphanumericAlphabet : List Char := ascii_letters ++ pydigits

theorem alphanumericAlphabet_length : alphanumericAlphabet.length = 62 := rfl

/--
generate_workspace_id (src/api.py lines 45-47): joins 12 characters
chosen by random.choices from the alphanumeric population.  The random
source is modelled by the explicit parameter pick giving, for each of
the 12 positions, the index into the population that random.choices
selected there.
-/
def generate_workspace_id (pick : Nat → Fin 62) : String :=
  String.mk ((List.range 12).map (fun i =>
    alphanumericAlphabet.get
      (Fin.cast alphanumericAlphabet_length.symm (pick i))))

/-- Observable steps a handler performs, in order: the HMAC check, the
cache resolution, each engine call with its arguments and metadata
filter, and the supabase insert of workspace creation. -/
inductive Event where
  | verifySig
  | resolveHandle (workspace_id : String)
  | engineSearch (question : String) (num_documents : Nat) (meta : Metadata)
  | engineAdd (file_url : String) (data_type : String) (meta : Metadata)
  | engineAddQnA (question : String) (answer : String) (data_type : String)
      (meta : Metadata)
  | engineListData (meta : Metadata)
  | engineDeleteData (file_name : String) (meta : Metadata)
  | backendInsert (workspace_id : String) (workspace_name : String)
deriving DecidableEq, Repr

/-- Whether an event is a call into the engine (a capability use). -/
def isEngineCall : Event → Bool
  | .engineSearch _ _ _ => true
  | .engineAdd _ _ _ => true
  | .engineAddQnA _ _ _ _ => true
  | .engineListData _ => true
  | .engineDeleteData _ _ => true
  | _ => false

/-- The engine calls of a trace, in order. -/
def engineCalls (tr : List Event) : List Event := tr.filter isEngineCall

/-- The metadata filter an engine call passes. -/
def eventMeta : Event → Option Metadata
  | .engineSearch _ _ m => some m
  | .engineAdd _ _ m => some m
  | .engineAddQnA _ _ _ m => some m
  | .engineListData m => some m
  | .engineDeleteData _ m => some m
  | _ => none

/--
create_workspace (src/api.py lines 103-113): generates a workspace id,
opens a supabase client with the caller-supplied credentials and
inserts the record; the insert is the oracle insertOutcome, and an
exception from it is uncaught, which FastAPI surfaces as a 500.
Returns the new id and name.  No signature check is performed.
-/
def create_workspace (workspace_name : String) (pick : Nat → Fin 62)
    (insertOutcome : EngineOutcome Unit) :
    HandlerResult (String × String) × List Event :=
  let workspace_id := generate_workspace_id pick
  match insertOutcome with
  | .success _ =>
      (.ok (workspace_id, workspace_name),
       [.backendInsert workspace_id workspace_name])
  | .raiseValueError m =>
      (.httpError 500 m, [.backendInsert workspace_id workspace_name])
  | .raiseOther m =>
      (.httpError 500 m, [.backendInsert workspace_id workspace_name])

/--
get_data (src/api.py lines 116-130), endpoint POST /api/data: verify
the signature, resolve the workspace handle, search with num_documents
5 and the workspace metadata filter; when the first search returns an
empty list, search once more with identical arguments and return that
second answer; any exception becomes a 500.  searchOutcome n is the
engine's response to the (n+1)-th search call of this request.
-/
def get_data (hmacHex : String → String → String) (secret : String)
    (xSig : Option String) (body : String)
    (question : String) (session_id : String) (workspace_id : String)
    (s : CacheState)
    (searchOutcome : Nat → EngineOutcome (List String)) :
    HandlerResult (List String) × CacheState × List Event :=
  match verify_hmac_signature hmacHex secret xSig body with
  | some cd => (.httpError cd.1 cd.2, s, [.verifySig])
  | none =>
      let r := get_workspace_app s workspace_id
      let meta : Metadata := ⟨workspace_id⟩
      let ev := [Event.verifySig, Event.resolveHandle workspace_id,
                 Event.engineSearch question 5 meta]
      match searchOutcome 0 with
      | .success answer =>
          if answer.length = 0 then
            let ev2 := ev ++ [Event.engineSearch question 5 meta]
            match searchOutcome 1 with
            | .success answer2 => (.ok answer2, r.2, ev2)
            | .raiseValueError m => (.httpError 500 m, r.2, ev2)
            | .raiseOther m => (.httpError 500 m, r.2, ev2)
          else (.ok answer, r.2, ev)
      | .raiseValueError m => (.httpError 500 m, r.2, ev)
      | .raiseOther m => (.httpError 500 m, r.2, ev)

/--
train (src/api.py lines 133-149), endpoint POST /api/train: verify the
signature, resolve the workspace handle, then reject with 400 when
file_url or data_type is empty (`if not file_url or not data_type`
after the resolution), otherwise add the document with the workspace
metadata filter; every exception from add becomes a 500 (ValueError is
an Exception too).
-/
def train (hmacHex : String → String → String) (secret : String)
    (xSig : Option String) (body : String)
    (file_url : String) (data_type : String) (workspace_id : String)
    (s : CacheState) (addOutcome : EngineOutcome Unit) :
    HandlerResult String × CacheState × List Event :=
  match verify_hmac_signature hmacHex secret xSig body with
  | some cd => (.httpError cd.1 cd.2, s, [.verifySig])
  | none =>
      let r := get_workspace_app s workspace_id
      let ev0 := [Event.verifySig, Event.resolveHandle workspace_id]
      if file_url = "" ∨ data_type = "" then
        (.httpError 400 "Both \x27file_url\x27 and \x27data_type\x27 are required",
         r.2, ev0)
      else
        let ev := ev0 ++ [Event.engineAdd file_url data_type ⟨workspace_id⟩]
        match addOutcome with
        | .success _ => (.ok "Training data added successfully", r.2, ev)
        | .raiseValueError m => (.httpError 500 m, r.2, ev)
        | .raiseOther m => (.httpError 500 m, r.2, ev)

/--
train_qna (src/api.py lines 152-168), endpoint POST /api/train/qna:
verify the signature, resolve the workspace handle, add the
question/answer pair with the workspace metadata filter; a ValueError
from add becomes 422 with str(ve) as detail, any other exception
becomes 500 with str(e) as detail.
-/
def train_qna (hmacHex : String → String → String) (secret : String)
    (xSig : Option String) (body : String)
    (question : String) (answer : String) (data_type : String)
    (workspace_id : String)
    (s : CacheState) (addOutcome : EngineOutcome Unit) :
    HandlerResult String × CacheState × List Event :=
  match verify_hmac_signature hmacHex secret xSig body with
  | some cd => (.httpError cd.1 cd.2, s, [.verifySig])
  | none =>
      let r := get_workspace_app s workspace_id
      let ev := [Event.verifySig, Event.resolveHandle workspace_id,
                 Event.engineAddQnA question answer data_type ⟨workspace_id⟩]
      match addOutcome with
      | .success _ => (.ok "Q&A pair added successfully", r.2, ev)
      | .raiseValueError m => (.httpError 422 m, r.2, ev)
      | .raiseOther m => (.httpError 500 m, r.2, ev)

/--
list_data (src/api.py lines 171-181), endpoint GET
/api/data/list/(workspace_id): verify the signature, resolve the
workspace handle, list the data under the workspace metadata filter;
any exception becomes a 500.
-/
def list_data (hmacHex : String → String → String) (secret : String)
    (xSig : Option String) (body : String)
    (workspace_id : String)
    (s : CacheState) (listOutcome : EngineOutcome (List String)) :
    HandlerResult (List String) × CacheState × List Event :=
  match verify_hmac_signature hmacHex secret xSig body with
  | some cd => (.httpError cd.1 cd.2, s, [.verifySig])
  | none =>
      let r := get_workspace_app s workspace_id
      let ev := [Event.verifySig, Event.resolveHandle workspace_id,
                 Event.engineListData ⟨workspace_id⟩]
      match listOutcome with
      | .success l => (.ok l, r.2, ev)
      | .raiseValueError m => (.httpError 500 m, r.2, ev)
      | .raiseOther m => (.httpError 500 m, r.2, ev)

/--
delete_data (src/api.py lines 185-195), endpoint DELETE
/api/data/delete/(workspace_id): verify the signature, resolve the
workspace handle, delete file_name under the workspace metadata
filter; on success returns the f-string status
"Data (file_name) deleted successfully"; any exception becomes a 500.
-/
def delete_data (hmacHex : String → String → String) (secret : String)
    (xSig : Option String) (body : String)
    (workspace_id : String) (file_name : String)
    (s : CacheState) (deleteOutcome : EngineOutcome Unit) :
    HandlerResult String × CacheState × List Event :=
  match verify_hmac_signature hmacHex secret xSig body with
  | some cd => (.httpError cd.1 cd.2, s, [.verifySig])
  | none =>
      let r := get_workspace_app s workspace_id
      let ev := [Event.verifySig, Event.resolveHandle workspace_id,
                 Event.engineDeleteData file_name ⟨workspace_id⟩]
      match deleteOutcome with
      | .success _ =>
          (.ok ("Data " ++ file_name ++ " deleted successfully"), r.2, ev)
      | .raiseValueError m => (.httpError 500 m, r.2, ev)
      | .raiseOther m => (.httpError 500 m, r.2, ev)

theorem get_workspace_app_cached (s : CacheState) (w : String) (h : Nat)
    (hl : lookupApp s.workspace_apps w = some h) :
    get_workspace_app s w = (h, s) := by
  unfold get_workspace_app
  rw [hl]

theorem get_workspace_app_fresh (s : CacheState) (w : String)
    (hl : lookupApp s.workspace_apps w = none) :
    get_workspace_app s w =
      (s.nextHandle,
       ⟨s.workspace_apps ++ [(w, s.nextHandle)], s.nextHandle + 1⟩) := by
  unfold get_workspace_app
  rw [hl]

/--
C1: for every workspace identifier, two sequential resolutions via the
instance cache (get_workspace_app) return the same underlying engine
handle, and for two distinct workspace identifiers the resolved
handles are distinct objects (distinct identity tokens), in any
well-formed cache state.
-/
theorem C1_cache_idempotent_and_injective (s : CacheState) (hwf : CacheWF s)
    (w w1 w2 : String) (hne : w1 ≠ w2) :
    (get_workspace_app (get_workspace_app s w).2 w).1 =
      (get_workspace_app s w).1 ∧
    (get_workspace_app (get_workspace_app s w1).2 w2).1 ≠
      (get_workspace_app s w1).1 := by
  constructor
  · cases hl : lookupApp s.workspace_apps w with
    | some h =>
        rw [get_workspace_app_cached s w h hl, get_workspace_app_cached s w h hl]
    | none =>
        rw [get_workspace_app_fresh s w hl]
        rw [get_workspace_app_cached
          ⟨s.workspace_apps ++ [(w, s.nextHandle)], s.nextHandle + 1⟩ w
          s.nextHandle (lookupApp_append_none s.nextHandle hl)]
  · cases hl1 : lookupApp s.workspace_apps w1 with
    | some h1 =>
        rw [get_workspace_app_cached s w1 h1 hl1]
        cases hl2 : lookupApp s.workspace_apps w2 with
        | some h2 =>
            rw [get_workspace_app_cached s w2 h2 hl2]
            exact lookupApp_inj hwf.2 hl2 hl1 (Ne.symm hne)
        | none =>
            rw [get_workspace_app_fresh s w2 hl2]
            exact Ne.symm (Nat.ne_of_lt (lookupApp_lt hwf.1 hl1))
    | none =>
        rw [get_workspace_app_fresh s w1 hl1]
        have hext : lookupApp (s.workspace_apps ++ [(w1, s.nextHandle)]) w2 =
            lookupApp s.workspace_apps w2 :=
          lookupApp_append_ne s.nextHandle (Ne.symm hne)
        cases hl2 : lookupApp s.workspace_apps w2 with
        | some h2 =>
            rw [get_workspace_app_cached
              ⟨s.workspace_apps ++ [(w1, s.nextHandle)], s.nextHandle + 1⟩ w2
              h2 (hext.trans hl2)]
            exact Nat.ne_of_lt (lookupApp_lt hwf.1 hl2)
        | none =>
            rw [get_workspace_app_fresh
              ⟨s.workspace_apps ++ [(w1, s.nextHandle)], s.nextHandle + 1⟩ w2
              (hext.trans hl2)]
            simp

/-- Witness for C1 at the initial empty cache with identifiers a and b. -/
theorem C1_witness :
    CacheWF ⟨[], 0⟩ ∧
      ((get_workspace_app (get_workspace_app ⟨[], 0⟩ "a").2 "a").1 =
          (get_workspace_app ⟨[], 0⟩ "a").1 ∧
        (get_workspace_app (get_workspace_app ⟨[], 0⟩ "a").2 "b").1 ≠
          (get_workspace_app ⟨[], 0⟩ "a").1) :=
  ⟨⟨by simp, by simp⟩,
   C1_cache_idempotent_and_injective ⟨[], 0⟩ ⟨by simp, by simp⟩ "a" "a" "b"
     (by decide)⟩

/--
C10: resolving workspace_id w via get_workspace_app leaves the cache
entry of every other identifier unchanged, leaves the whole state
unchanged (in particular never replaces the entry) when w is already
cached, preserves every existing entry with its handle, inserts a
fresh handle for any absent w with no existence check, and can only
grow the set of cached identifiers.
-/
theorem C10_get_workspace_app_frame (s : CacheState) (w : String) :
    (∀ w', w' ≠ w →
      lookupApp (get_workspace_app s w).2.workspace_apps w' =
        lookupApp s.workspace_apps w') ∧
    (∀ h, lookupApp s.workspace_apps w = some h →
      (get_workspace_app s w).2 = s) ∧
    (∀ w' v, lookupApp s.workspace_apps w' = some v →
      lookupApp (get_workspace_app s w).2.workspace_apps w' = some v) ∧
    (lookupApp s.workspace_apps w = none →
      lookupApp (get_workspace_app s w).2.workspace_apps w =
        some s.nextHandle) ∧
    s.workspace_apps.map Prod.fst ⊆
      (get_workspace_app s w).2.workspace_apps.map Prod.fst := by
  cases hl : lookupApp s.workspace_apps w with
  | some h =>
      rw [get_workspace_app_cached s w h hl]
      exact ⟨fun _ _ => rfl, fun _ _ => rfl, fun _ _ hv => hv,
        fun hc => absurd hc (by simp), fun x hx => hx⟩
  | none =>
      rw [get_workspace_app_fresh s w hl]
      refine ⟨?_, ?_, ?_, ?_, ?_⟩
      · intro w' hne
        exact lookupApp_append_ne s.nextHandle hne
      · intro h hc
        exact absurd hc (by simp)
      · intro w' v hv
        by_cases hw : w' = w
        · subst hw
          exact absurd (hl.symm.trans hv) (by simp)
        · rw [lookupApp_append_ne s.nextHandle hw]
          exact hv
      · intro _
        exact lookupApp_append_none s.nextHandle hl
      · intro x hx
        simp only [List.map_append] at *
        exact List.mem_append_left _ hx

/-- Witness for C10: in the empty cache the identifier a is absent and
resolution inserts it with the fresh handle 0. -/
theorem C10_witness :
    lookupApp (CacheState.mk [] 0).workspace_apps "a" = none ∧
    lookupApp (get_workspace_app ⟨[], 0⟩ "a").2.workspace_apps "a" = some 0 :=
  ⟨rfl, (C10_get_workspace_app_frame ⟨[], 0⟩ "a").2.2.2.1 rfl⟩

/--
C3: verify_hmac_signature raises 403 when the X-Signature header is
absent (for any body), raises 403 whenever the supplied value differs
from the hex HMAC-SHA256 digest of the body under the server secret,
and raises nothing when the supplied value equals that digest (the
digest of a real HMAC-SHA256 hexdigest is nonempty, hypothesis hne).
-/
theorem C3_verify_hmac_signature_correct
    (hmacHex : String → String → String) (secret body : String)
    (hne : hmacHex secret body ≠ "") :
    verify_hmac_signature hmacHex secret none body =
        some (403, "Signature missing") ∧
    (∀ sig, sig ≠ hmacHex secret body →
      ∃ detail,
        verify_hmac_signature hmacHex secret (some sig) body =
          some (403, detail)) ∧
    verify_hmac_signature hmacHex secret (some (hmacHex secret body)) body =
      none := by
  refine ⟨rfl, ?_, ?_⟩
  · intro sig hsig
    unfold verify_hmac_signature
    by_cases hempty : sig = ""
    · exact ⟨"Signature missing", by simp [hempty]⟩
    · exact ⟨"Invalid signature", by simp [hempty, Ne.symm hsig]⟩
  · unfold verify_hmac_signature
    simp [hne]

/-- Witness for C3 with a concrete nonempty digest function. -/
theorem C3_witness :
    (fun s b => s ++ b) "k" "b" ≠ "" ∧
    (verify_hmac_signature (fun s b => s ++ b) "k" none "b" =
        some (403, "Signature missing") ∧
      (∀ sig, sig ≠ (fun s b => s ++ b) "k" "b" →
        ∃ detail,
          verify_hmac_signature (fun s b => s ++ b) "k" (some sig) "b" =
            some (403, detail)) ∧
      verify_hmac_signature (fun s b => s ++ b) "k"
        (some ((fun s b => s ++ b) "k" "b")) "b" = none) :=
  ⟨by decide, C3_verify_hmac_signature_correct (fun s b => s ++ b) "k" "b"
    (by decide)⟩

/--
C7: for every valid workspace-creation request, the identifier
returned by create_workspace is exactly 12 characters long and each of
its characters is drawn from the 62-character alphanumeric population
(ASCII letters and digits).
-/
theorem C7_workspace_id_format (workspace_name : String)
    (pick : Nat → Fin 62) :
    ∃ wid,
      (create_workspace workspace_name pick (.success ())).1 =
        .ok (wid, workspace_name) ∧
      wid.length = 12 ∧
      (∀ c ∈ wid.toList, c ∈ alphanumericAlphabet) ∧
      alphanumericAlphabet.length = 62 := by
  refine ⟨generate_workspace_id pick, rfl, ?_, ?_, rfl⟩
  · unfold generate_workspace_id
    simp [String.length]
  · intro c hc
    unfold generate_workspace_id at hc
    simp only [String.toList, List.mem_map, List.mem_range] at hc
    obtain ⟨i, _, rfl⟩ := hc
    exact List.get_mem _ _ _

/--
C2 as stated is false on the code: with a valid signature and an empty
file_url, train does return the 400 error, but its trace already
contains the workspace handle resolution, because
get_workspace_app is called (src/api.py line 140) before the
missing-field check (line 142); so the failure is not "before ever
resolving the workspace engine handle".
-/
theorem C2_counterexample :
    (train (fun s b => s ++ b) "k" (some "kB") "B" "" "pdf" "w1" ⟨[], 0⟩
        (.success ())).1 =
      .httpError 400 "Both \x27file_url\x27 and \x27data_type\x27 are required" ∧
    Event.resolveHandle "w1" ∈
      (train (fun s b => s ++ b) "k" (some "kB") "B" "" "pdf" "w1" ⟨[], 0⟩
        (.success ())).2.2 :=
  ⟨by decide, by decide⟩

/--
C2 (amended): for every /api/train request passing signature
verification whose file_url or data_type is empty, the handler fails
with a 400 bad-request error before any engine call is made — but
after resolving the workspace engine handle, which the code resolves
unconditionally before the field check.
-/
theorem C2_train_missing_fields_400
    (hmacHex : String → String → String) (secret : String)
    (xSig : Option String) (body : String)
    (file_url data_type workspace_id : String) (s : CacheState)
    (addOutcome : EngineOutcome Unit)
    (hpass : verify_hmac_signature hmacHex secret xSig body = none)
    (hmiss : file_url = "" ∨ data_type = "") :
    (train hmacHex secret xSig body file_url data_type workspace_id s
        addOutcome).1 =
      .httpError 400 "Both \x27file_url\x27 and \x27data_type\x27 are required" ∧
    engineCalls (train hmacHex secret xSig body file_url data_type
        workspace_id s addOutcome).2.2 = [] ∧
    (train hmacHex secret xSig body file_url data_type workspace_id s
        addOutcome).2.2 =
      [.verifySig, .resolveHandle workspace_id] := by
  unfold train
  rw [hpass]
  simp [hmiss, engineCalls, isEngineCall]

/-- Witness for C2 (amended) at a concrete request with empty file_url. -/
theorem C2_witness :
    (verify_hmac_signature (fun s b => s ++ b) "k" (some "kB") "B" = none ∧
      (("" : String) = "" ∨ ("pdf" : String) = "")) ∧
    (train (fun s b => s ++ b) "k" (some "kB") "B" "" "pdf" "w2" ⟨[], 0⟩
        (.success ())).1 =
      .httpError 400 "Both \x27file_url\x27 and \x27data_type\x27 are required" :=
  ⟨⟨by decide, Or.inl rfl⟩,
   (C2_train_missing_fields_400 (fun s b => s ++ b) "k" (some "kB") "B" ""
     "pdf" "w2" ⟨[], 0⟩ (.success ()) (by decide) (Or.inl rfl)).1⟩

/--
C5: for every /api/data query passing signature verification, when the
first engine search is non-empty it is returned with no second search,
and when the first search returns zero results the handler performs
one more search with identical arguments (same question, num_documents
5, same workspace metadata filter) and returns that retry's result.
-/
theorem C5_get_data_retry_on_empty
    (hmacHex : String → String → String) (secret : String)
    (xSig : Option String) (body : String)
    (question session_id workspace_id : String) (s : CacheState)
    (searchOutcome : Nat → EngineOutcome (List String))
    (hpass : verify_hmac_signature hmacHex secret xSig body = none) :
    (∀ l, searchOutcome 0 = .success l → l ≠ [] →
      (get_data hmacHex secret xSig body question session_id workspace_id s
          searchOutcome).1 = .ok l ∧
      engineCalls (get_data hmacHex secret xSig body question session_id
          workspace_id s searchOutcome).2.2 =
        [.engineSearch question 5 ⟨workspace_id⟩]) ∧
    (∀ l2, searchOutcome 0 = .success [] → searchOutcome 1 = .success l2 →
      (get_data hmacHex secret xSig body question session_id workspace_id s
          searchOutcome).1 = .ok l2 ∧
      engineCalls (get_data hmacHex secret xSig body question session_id
          workspace_id s searchOutcome).2.2 =
        [.engineSearch question 5 ⟨workspace_id⟩,
         .engineSearch question 5 ⟨workspace_id⟩]) := by
  constructor
  · intro l h0 hl
    unfold get_data
    rw [hpass, h0]
    simp [List.length_eq_zero, hl, engineCalls, isEngineCall]
  · intro l2 h0 h1
    unfold get_data
    rw [hpass, h0, h1]
    simp [engineCalls, isEngineCall]

/-- Witness for C5: empty first search, non-empty second. -/
theorem C5_witness :
    (verify_hmac_signature (fun s b => s ++ b) "k" (some "kb") "b" = none ∧
      (fun n => if n = 0 then EngineOutcome.success ([] : List String)
        else .success ["x"]) 0 = .success [] ∧
      (fun n => if n = 0 then EngineOutcome.success ([] : List String)
        else .success ["x"]) 1 = .success ["x"]) ∧
    (get_data (fun s b => s ++ b) "k" (some "kb") "b" "q" "sess" "w" ⟨[], 0⟩
        (fun n => if n = 0 then EngineOutcome.success ([] : List String)
          else .success ["x"])).1 = .ok ["x"] :=
  ⟨⟨by decide, rfl, rfl⟩,
   ((C5_get_data_retry_on_empty (fun s b => s ++ b) "k" (some "kb") "b" "q"
       "sess" "w" ⟨[], 0⟩
       (fun n => if n = 0 then EngineOutcome.success ([] : List String)
         else .success ["x"]) (by decide)).2 ["x"] rfl rfl).1⟩

/--
C6: for every /api/train/qna request passing signature verification, a
ValueError raised by the engine add yields a 422 with the error's
message as detail, any other exception yields a 500 with its string
representation as detail, and success yields the status message.
-/
theorem C6_train_qna_error_mapping
    (hmacHex : String → String → String) (secret : String)
    (xSig : Option String) (body : String)
    (question answer data_type workspace_id : String) (s : CacheState)
    (addOutcome : EngineOutcome Unit)
    (hpass : verify_hmac_signature hmacHex secret xSig body = none) :
    (∀ m, addOutcome = .raiseValueError m →
      (train_qna hmacHex secret xSig body question answer data_type
          workspace_id s addOutcome).1 = .httpError 422 m) ∧
    (∀ m, addOutcome = .raiseOther m →
      (train_qna hmacHex secret xSig body question answer data_type
          workspace_id s addOutcome).1 = .httpError 500 m) ∧
    (addOutcome = .success () →
      (train_qna hmacHex secret xSig body question answer data_type
          workspace_id s addOutcome).1 = .ok "Q&A pair added successfully") := by
  refine ⟨fun m hm => ?_, fun m hm => ?_, fun hm => ?_⟩ <;>
    unfold train_qna <;> rw [hpass, hm]

/-- Witness for C6: a concrete ValueError from the engine add. -/
theorem C6_witness :
    (verify_hmac_signature (fun s b => s ++ b) "k" (some "kb") "b" = none ∧
      (EngineOutcome.raiseValueError "bad pair" : EngineOutcome Unit) =
        .raiseValueError "bad pair") ∧
    (train_qna (fun s b => s ++ b) "k" (some "kb") "b" "q" "a" "qna" "w"
        ⟨[], 0⟩ (.raiseValueError "bad pair")).1 =
      .httpError 422 "bad pair" :=
  ⟨⟨by decide, rfl⟩,
   (C6_train_qna_error_mapping (fun s b => s ++ b) "k" (some "kb") "b" "q" "a"
     "qna" "w" ⟨[], 0⟩ (.raiseValueError "bad pair") (by decide)).1 "bad pair"
     rfl⟩

/--
C9: for every delete request passing signature verification whose
engine delete_data call succeeds, the handler returns a confirmation
string containing the supplied file name.
-/
theorem C9_delete_confirmation_contains_file_name
    (hmacHex : String → String → String) (secret : String)
    (xSig : Option String) (body : String)
    (workspace_id file_name : String) (s : CacheState)
    (deleteOutcome : EngineOutcome Unit)
    (hpass : verify_hmac_signature hmacHex secret xSig body = none)
    (hsucc : deleteOutcome = .success ()) :
    ∃ pre post,
      (delete_data hmacHex secret xSig body workspace_id file_name s
          deleteOutcome).1 = .ok (pre ++ file_name ++ post) := by
  refine ⟨"Data ", " deleted successfully", ?_⟩
  unfold delete_data
  rw [hpass, hsucc]

/-- Witness for C9 at a concrete file name. -/
theorem C9_witness :
    (verify_hmac_signature (fun s b => s ++ b) "k" (some "kb") "b" = none ∧
      (EngineOutcome.success () : EngineOutcome Unit) = .success ()) ∧
    ∃ pre post,
      (delete_data (fun s b => s ++ b) "k" (some "kb") "b" "w" "doc.pdf"
          ⟨[], 0⟩ (.success ())).1 = .ok (pre ++ "doc.pdf" ++ post) :=
  ⟨⟨by decide, rfl⟩,
   C9_delete_confirmation_contains_file_name (fun s b => s ++ b) "k"
     (some "kb") "b" "w" "doc.pdf" ⟨[], 0⟩ (.success ()) (by decide) rfl⟩

/--
C4: in every data-endpoint handler (get_data, train, train_qna,
list_data, delete_data) the signature verification is the first
observable step, before the workspace handle resolution and any engine
call, and when verification fails the trace is the verification alone
(no resolution, no engine call); the workspace-creation handler
performs no signature check at all.
-/
theorem C4_signature_check_runs_first
    (hmacHex : String → String → String) (secret : String)
    (xSig : Option String) (body : String)
    (question session_id workspace_id : String) (s : CacheState)
    (searchOutcome : Nat → EngineOutcome (List String))
    (file_url data_type wsT : String) (sT : CacheState)
    (addOutcome : EngineOutcome Unit)
    (qQ aQ dtQ wsQ : String) (sQ : CacheState)
    (qnaOutcome : EngineOutcome Unit)
    (wsL : String) (sL : CacheState)
    (listOutcome : EngineOutcome (List String))
    (wsD file_name : String) (sD : CacheState)
    (deleteOutcome : EngineOutcome Unit)
    (workspace_name : String) (pick : Nat → Fin 62)
    (insertOutcome : EngineOutcome Unit) :
    ((get_data hmacHex secret xSig body question session_id workspace_id s
        searchOutcome).2.2.head? = some .verifySig) ∧
    ((train hmacHex secret xSig body file_url data_type wsT sT
        addOutcome).2.2.head? = some .verifySig) ∧
    ((train_qna hmacHex secret xSig body qQ aQ dtQ wsQ sQ
        qnaOutcome).2.2.head? = some .verifySig) ∧
    ((list_data hmacHex secret xSig body wsL sL
        listOutcome).2.2.head? = some .verifySig) ∧
    ((delete_data hmacHex secret xSig body wsD file_name sD
        deleteOutcome).2.2.head? = some .verifySig) ∧
    Event.verifySig ∉ (create_workspace workspace_name pick insertOutcome).2 ∧
    (∀ cd, verify_hmac_signature hmacHex secret xSig body = some cd →
      (get_data hmacHex secret xSig body question session_id workspace_id s
          searchOutcome).2.2 = [.verifySig] ∧
      (train hmacHex secret xSig body file_url data_type wsT sT
          addOutcome).2.2 = [.verifySig] ∧
      (train_qna hmacHex secret xSig body qQ aQ dtQ wsQ sQ
          qnaOutcome).2.2 = [.verifySig] ∧
      (list_data hmacHex secret xSig body wsL sL
          listOutcome).2.2 = [.verifySig] ∧
      (delete_data hmacHex secret xSig body wsD file_name sD
          deleteOutcome).2.2 = [.verifySig]) := by
  cases hv : verify_hmac_signature hmacHex secret xSig body with
  | some cd =>
      refine ⟨?_, ?_, ?_, ?_, ?_, ?_, fun cd2 _ => ⟨?_, ?_, ?_, ?_, ?_⟩⟩
      · unfold get_data; rw [hv]; rfl
      · unfold train; rw [hv]; rfl
      · unfold train_qna; rw [hv]; rfl
      · unfold list_data; rw [hv]; rfl
      · unfold delete_data; rw [hv]; rfl
      · cases insertOutcome <;> simp [create_workspace]
      · unfold get_data; rw [hv]
      · unfold train; rw [hv]
      · unfold train_qna; rw [hv]
      · unfold list_data; rw [hv]
      · unfold delete_data; rw [hv]
  | none =>
      refine ⟨?_, ?_, ?_, ?_, ?_, ?_, fun cd2 hc => absurd hc (by simp)⟩
      · unfold get_data; rw [hv]
        cases h0 : searchOutcome 0 with
        | success l =>
            by_cases hl : l.length = 0
            · cases h1 : searchOutcome 1 <;> simp [hl]
            · simp [hl]
        | raiseValueError m => simp
        | raiseOther m => simp
      · unfold train; rw [hv]
        by_cases hm : file_url = "" ∨ data_type = ""
        · simp [hm]
        · cases addOutcome <;> simp [hm]
      · unfold train_qna; rw [hv]
        cases qnaOutcome <;> simp
      · unfold list_data; rw [hv]
        cases listOutcome <;> simp
      · unfold delete_data; rw [hv]
        cases deleteOutcome <;> simp
      · cases insertOutcome <;> simp [create_workspace]

/-- Witness for C4: with the header absent, verification fails and
get_data stops at the signature check. -/
theorem C4_witness :
    verify_hmac_signature (fun s b => s ++ b) "k" none "b" =
        some (403, "Signature missing") ∧
    (get_data (fun s b => s ++ b) "k" none "b" "q" "sess" "w" ⟨[], 0⟩
        (fun _ => .success ["x"])).2.2 = [.verifySig] :=
  ⟨rfl,
   ((C4_signature_check_runs_first (fun s b => s ++ b) "k" none "b" "q" "sess"
       "w" ⟨[], 0⟩ (fun _ => .success ["x"]) "f" "pdf" "w" ⟨[], 0⟩
       (.success ()) "q" "a" "qna" "w" ⟨[], 0⟩ (.success ()) "w" ⟨[], 0⟩
       (.success []) "w" "f" ⟨[], 0⟩ (.success ()) "n" (fun _ => 0)
       (.success ())).2.2.2.2.2.2 (403, "Signature missing") rfl).1⟩

/--
C8 is false as stated: with a valid signature and an engine whose
search returns the empty list, a single /api/data request makes two
engine calls (the retry), not exactly one.
-/
theorem C8_counterexample :
    (engineCalls ((get_data (fun s b => s ++ b) "k" (some "kb") "b" "q" "sess"
        "w" ⟨[], 0⟩ (fun _ => .success [])).2.2)).length = 2 ∧
    (engineCalls ((get_data (fun s b => s ++ b) "k" (some "kb") "b" "q" "sess"
        "w" ⟨[], 0⟩ (fun _ => .success [])).2.2)).length ≠ 1 :=
  ⟨by decide, by decide⟩

/--
C8 (amended): every handler invokes at most one engine capability kind
per request — the query handler may call search twice (its retry on an
empty first result) and a failing request may call none — and every
engine call passes the metadata filter mapping workspace_id to the
caller's workspace identifier: each handler's engine-call trace is
empty, the singleton of its own capability with the caller's filter,
or (query only) that search call twice.
-/
theorem C8_one_capability_with_workspace_filter
    (hmacHex : String → String → String) (secret : String)
    (xSig : Option String) (body : String)
    (question session_id workspace_id : String) (s : CacheState)
    (searchOutcome : Nat → EngineOutcome (List String))
    (file_url data_type wsT : String) (sT : CacheState)
    (addOutcome : EngineOutcome Unit)
    (qQ aQ dtQ wsQ : String) (sQ : CacheState)
    (qnaOutcome : EngineOutcome Unit)
    (wsL : String) (sL : CacheState)
    (listOutcome : EngineOutcome (List String))
    (wsD file_name : String) (sD : CacheState)
    (deleteOutcome : EngineOutcome Unit) :
    (engineCalls (get_data hmacHex secret xSig body question session_id
        workspace_id s searchOutcome).2.2 = [] ∨
      engineCalls (get_data hmacHex secret xSig body question session_id
          workspace_id s searchOutcome).2.2 =
        [.engineSearch question 5 ⟨workspace_id⟩] ∨
      engineCalls (get_data hmacHex secret xSig body question session_id
          workspace_id s searchOutcome).2.2 =
        [.engineSearch question 5 ⟨workspace_id⟩,
         .engineSearch question 5 ⟨workspace_id⟩]) ∧
    (engineCalls (train hmacHex secret xSig body file_url data_type wsT sT
        addOutcome).2.2 = [] ∨
      engineCalls (train hmacHex secret xSig body file_url data_type wsT sT
          addOutcome).2.2 = [.engineAdd file_url data_type ⟨wsT⟩]) ∧
    (engineCalls (train_qna hmacHex secret xSig body qQ aQ dtQ wsQ sQ
        qnaOutcome).2.2 = [] ∨
      engineCalls (train_qna hmacHex secret xSig body qQ aQ dtQ wsQ sQ
          qnaOutcome).2.2 = [.engineAddQnA qQ aQ dtQ ⟨wsQ⟩]) ∧
    (engineCalls (list_data hmacHex secret xSig body wsL sL
        listOutcome).2.2 = [] ∨
      engineCalls (list_data hmacHex secret xSig body wsL sL
          listOutcome).2.2 = [.engineListData ⟨wsL⟩]) ∧
    (engineCalls (delete_data hmacHex secret xSig body wsD file_name sD
        deleteOutcome).2.2 = [] ∨
      engineCalls (delete_data hmacHex secret xSig body wsD file_name sD
          deleteOutcome).2.2 = [.engineDeleteData file_name ⟨wsD⟩]) := by
  refine ⟨?_, ?_, ?_, ?_, ?_⟩
  · unfold get_data
    cases hv : verify_hmac_signature hmacHex secret xSig body with
    | some cd => simp [engineCalls, isEngineCall]
    | none =>
        cases h0 : searchOutcome 0 with
        | success l =>
            by_cases hl : l.length = 0
            · cases h1 : searchOutcome 1 <;>
                simp [hl, engineCalls, isEngineCall]
            · simp [hl, engineCalls, isEngineCall]
        | raiseValueError m => simp [engineCalls, isEngineCall]
        | raiseOther m => simp [engineCalls, isEngineCall]
  · unfold train
    cases hv : verify_hmac_signature hmacHex secret xSig body with
    | some cd => simp [engineCalls, isEngineCall]
    | none =>
        by_cases hm : file_url = "" ∨ data_type = ""
        · simp [hm, engineCalls, isEngineCall]
        · cases addOutcome <;> simp [hm, engineCalls, isEngineCall]
  · unfold train_qna
    cases hv : verify_hmac_signature hmacHex secret xSig body with
    | some cd => simp [engineCalls, isEngineCall]
    | none => cases qnaOutcome <;> simp [engineCalls, isEngineCall]
  · unfold list_data
    cases hv : verify_hmac_signature hmacHex secret xSig body with
    | some cd => simp [engineCalls, isEngineCall]
    | none => cases listOutcome <;> simp [engineCalls, isEngineCall]
  · unfold delete_data
    cases hv : verify_hmac_signature hmacHex secret xSig body with
    | some cd => simp [engineCalls, isEngineCall]
    | none => cases deleteOutcome <;> simp [engineCalls, isEngineCall]

end EmbedApi
